import Mathlib

/-!
Shallow embedding of `practicum/practicum-1/4_Daat_scoring.ipynb`
(document-at-a-time scoring with TF-IDF weighting).

Python dictionaries are modelled as association lists (insertion order
preserved, as in CPython), floats as real numbers, `math.log` as
`Real.log`, `math.sqrt` as `Real.sqrt`.  Operations that can raise a
Python exception (`dict[key]` on a missing key, division by zero) are
modelled in the `Except` monad.
-/

namespace Daat

abbrev Term := String

/-- A posting: a (docID, freq) pair, as in the notebook's inverted index. -/
abbrev Posting := Nat × Nat

/-- Python `d.get(k)` on an association list: first matching key wins. -/
def dget {α β : Type} [DecidableEq α] (k : α) : List (α × β) → Option β
  | [] => none
  | (a, b) :: rest => if a = k then some b else dget k rest

/-- The term-document matrix `td_matrix` from the notebook. -/
def td_matrix : List (Term × List Nat) :=
  [("beijing", [0, 1, 0, 0, 1]),
   ("dish",    [0, 1, 0, 0, 1]),
   ("duck",    [3, 2, 2, 0, 1]),
   ("rabbit",  [0, 0, 1, 1, 0]),
   ("recipe",  [0, 0, 1, 1, 1]),
   ("roast",   [0, 0, 0, 0, 0])]

/-- `NUM_DOCS = 5`, set manually in the notebook. -/
def NUM_DOCS : Nat := 5

/-- The inverted-index construction loop: for each term, keep the
(doc_id, freq) pairs with freq > 0, in document order. -/
def buildInvIdx (td : List (Term × List Nat)) : List (Term × List Posting) :=
  td.map (fun p => (p.1, p.2.enum.filter (fun q => 0 < q.2)))

/-- The same loop also accumulates `doclen[doc_id]`; the accumulated value
for a document is the sum of its positive frequencies over all terms. -/
def doclen (td : List (Term × List Nat)) (d : Nat) : Nat :=
  (td.map (fun p => p.2.getD d 0)).sum

/-- The notebook's `inv_idx` global. -/
def inv_idx : List (Term × List Posting) := buildInvIdx td_matrix

/-- `class InvIndex`: wraps the index contents. -/
structure InvIndex where
  idx : List (Term × List Posting)

/-- `InvIndex.postings`: `self.idx.get(term, [])`. -/
def InvIndex.postings (self : InvIndex) (term : Term) : List Posting :=
  (dget term self.idx).getD []

/-- The notebook's `idx = InvIndex(inv_idx)` global. -/
def idxW : InvIndex := ⟨inv_idx⟩

/-- `idf(term)`: `math.log(NUM_DOCS / len(idx.postings(term)))` if the
posting list is nonempty, else `0`.  `N` and `idx` are the globals
`NUM_DOCS` and `idx`, passed explicitly. -/
noncomputable def idf (N : Nat) (idx : InvIndex) (term : Term) : ℝ :=
  if 0 < (idx.postings term).length then
    Real.log ((N : ℝ) / ((idx.postings term).length : ℝ))
  else 0

/-- Python `d[k] = d.get(k, 0) + v` on an association list: bump the first
matching key in place, or append a fresh entry. -/
def upsertAdd (k : Nat) (v : ℝ) : List (Nat × ℝ) → List (Nat × ℝ)
  | [] => [(k, v)]
  | (a, x) :: rest =>
      if a = k then (a, x + v) :: rest else (a, x) :: upsertAdd k v rest

/-- The `dnorm` accumulation loop before the square roots are taken:
for each term and each document with freq > 0,
`dnorm[doc_id] = dnorm.get(doc_id, 0) + (freq / doclen[doc_id] * idf(term))**2`. -/
noncomputable def buildDnormSq (N : Nat) (idx : InvIndex)
    (td : List (Term × List Nat)) : List (Nat × ℝ) :=
  td.foldl (fun acc p =>
    p.2.enum.foldl (fun acc2 q =>
      if 0 < q.2 then
        upsertAdd q.1
          (((q.2 : ℝ) / (doclen td q.1 : ℝ) * idf N idx p.1) ^ 2) acc2
      else acc2) acc) []

/-- The final `dnorm` table: `dnorm[doc_id] = math.sqrt(val)` for each entry. -/
noncomputable def buildDnorm (N : Nat) (idx : InvIndex)
    (td : List (Term × List Nat)) : List (Nat × ℝ) :=
  (buildDnormSq N idx td).map (fun p => (p.1, Real.sqrt p.2))

/-- The global state `score_dt` reads: `NUM_DOCS`, the global `idx` used by
`idf`, and the precomputed `dnorm` table. -/
structure Env where
  numDocs : Nat
  gidx : InvIndex
  dnorm : List (Nat × ℝ)

/-- The notebook's global environment for the worked example. -/
noncomputable def envW : Env :=
  ⟨NUM_DOCS, idxW, buildDnorm NUM_DOCS idxW td_matrix⟩

/-- One step of `dict(Counter(query))`: record one more occurrence of `t`. -/
def counterAdd (l : List (Term × Nat)) (t : Term) : List (Term × Nat) :=
  match l with
  | [] => [(t, 1)]
  | (a, n) :: rest =>
      if a = t then (a, n + 1) :: rest else (a, n) :: counterAdd rest t

/-- `qry = dict(Counter(query))`: distinct query terms with multiplicities,
keyed in first-occurrence order. -/
def pyCounter (query : List Term) : List (Term × Nat) :=
  query.foldl counterAdd []

/-- The `tfidf_q` cache: for each entry of `qry`,
`tf = freq / len(query)` and `tfidf_q[term] = tf * idf(term)`. -/
noncomputable def tfidfQ (env : Env) (query : List Term) : List (Term × ℝ) :=
  (pyCounter query).map
    (fun p => (p.1, (p.2 : ℝ) / (query.length : ℝ) * idf env.numDocs env.gidx p.1))

/-- The accumulated `qnorm` before the square root:
`qnorm += tfidf_q[term]**2` over the `qry` loop. -/
noncomputable def qnormSq (env : Env) (query : List Term) : ℝ :=
  ((tfidfQ env query).map (fun p => p.2 ^ 2)).sum

/-- `qnorm = math.sqrt(qnorm)`. -/
noncomputable def qnorm (env : Env) (query : List Term) : ℝ :=
  Real.sqrt (qnormSq env query)

/-- The Python exceptions `score_dt` can raise: `KeyError` from
`dnorm[doc_id]` and `ZeroDivisionError` from `score / (qnorm * dnorm[doc_id])`. -/
inductive PyErr
  | keyError (doc : Nat)
  | divByZero
deriving DecidableEq, Repr

/-- The mutable state visible to the document sweep: the contents of the
`index` argument, the global `dnorm` table, the private posting-list copies
`plists`, and the `scores` accumulator. -/
structure ScoreState where
  idxc : List (Term × List Posting)
  dnormT : List (Nat × ℝ)
  plists : List (Term × List Posting)
  scores : List (Nat × ℝ)

/-- `plists[term] = list(index.postings(term))` for each key of `qry`:
the call-private posting-list copies. -/
def initPlists (qry : List (Term × Nat)) (index : InvIndex) :
    List (Term × List Posting) :=
  qry.map (fun p => (p.1, index.postings p.1))

/-- The inner score accumulation: `score = 0`, then for each query term,
`tfidf_d = 0` (the notebook's TODO placeholder) and
`score += tfidf_q[term] * tfidf_d`. -/
noncomputable def docScoreNum (tq : List (Term × ℝ)) : ℝ :=
  tq.foldl (fun acc p => acc + p.2 * 0) 0

/-- The body of `for doc_id in range(NUM_DOCS)`: build `f_d` (all zeros, the
TODO placeholder), accumulate `score`, then
`scores[doc_id] = score / (qnorm * dnorm[doc_id])` — `KeyError` when
`doc_id` is not in `dnorm`, `ZeroDivisionError` when the denominator is 0. -/
noncomputable def scoreStep (qry : List (Term × Nat)) (tq : List (Term × ℝ))
    (qn : ℝ) (st : ScoreState) (doc : Nat) : Except PyErr ScoreState :=
  let f_d := qry.map (fun p => (p.1, (0 : Nat)))
  match dget doc st.dnormT with
  | none => .error (.keyError doc)
  | some dn =>
      if qn * dn = 0 then .error .divByZero
      else .ok { st with
                 scores := st.scores ++ [(doc, docScoreNum tq / (qn * dn))] }

/-- The document sweep: run `scoreStep` over the remaining doc ids,
short-circuiting on the first exception. -/
noncomputable def docLoop (qry : List (Term × Nat)) (tq : List (Term × ℝ))
    (qn : ℝ) : List Nat → ScoreState → Except PyErr ScoreState
  | [], st => .ok st
  | d :: ds, st =>
      match scoreStep qry tq qn st d with
      | .error e => .error e
      | .ok st' => docLoop qry tq qn ds st'

/-- `score_dt(query, index)`, instrumented: returns the full final state
(index contents, dnorm table, private posting copies, scores). -/
noncomputable def score_dtFull (env : Env) (query : List Term)
    (index : InvIndex) : Except PyErr ScoreState :=
  let qry := pyCounter query
  let tq := tfidfQ env query
  let qn := qnorm env query
  docLoop qry tq qn (List.range env.numDocs)
    ⟨index.idx, env.dnorm, initPlists qry index, []⟩

/-- `score_dt(query, index)`: the returned `scores` mapping. -/
noncomputable def score_dt (env : Env) (query : List Term)
    (index : InvIndex) : Except PyErr (List (Nat × ℝ)) :=
  (score_dtFull env query index).map ScoreState.scores

/-- The worked-example query. -/
def queryW : List Term := ["beijing", "duck", "recipe"]

/-- Total number of posting entries held in a posting-list table. -/
def totalPostings (pl : List (Term × List Posting)) : Nat :=
  (pl.map (fun p => p.2.length)).sum

/-- A second dataset run through the same pipeline: two documents, of which
document 1 contains no term at all. -/
def td2 : List (Term × List Nat) := [("a", [1, 0])]

/-- The inverted index built from `td2`. -/
def idx2 : InvIndex := ⟨buildInvIdx td2⟩

/-- The global environment obtained by running the notebook's pipeline on
`td2` with `NUM_DOCS = 2`. -/
noncomputable def env2 : Env := ⟨2, idx2, buildDnorm 2 idx2 td2⟩

end Daat

namespace Daat

/-! ### Worked-example evaluation facts -/

theorem postings_beijing : idxW.postings "beijing" = [(1, 1), (4, 1)] := by decide

theorem postings_dish : idxW.postings "dish" = [(1, 1), (4, 1)] := by decide

theorem postings_duck :
    idxW.postings "duck" = [(0, 3), (1, 2), (2, 2), (4, 1)] := by decide

theorem postings_rabbit : idxW.postings "rabbit" = [(2, 1), (3, 1)] := by decide

theorem postings_recipe :
    idxW.postings "recipe" = [(2, 1), (3, 1), (4, 1)] := by decide

theorem postings_roast : idxW.postings "roast" = [] := by decide

theorem roast_postings_empty : (idxW.postings "roast").length = 0 := by decide

theorem pizza_unknown : dget "pizza" inv_idx = none := by decide

theorem idf_beijing : idf NUM_DOCS idxW "beijing" = Real.log (5 / 2) := by
  rw [idf, postings_beijing]
  norm_num [NUM_DOCS]

theorem idf_dish : idf NUM_DOCS idxW "dish" = Real.log (5 / 2) := by
  rw [idf, postings_dish]
  norm_num [NUM_DOCS]

theorem idf_duck : idf NUM_DOCS idxW "duck" = Real.log (5 / 4) := by
  rw [idf, postings_duck]
  norm_num [NUM_DOCS]

theorem idf_rabbit : idf NUM_DOCS idxW "rabbit" = Real.log (5 / 2) := by
  rw [idf, postings_rabbit]
  norm_num [NUM_DOCS]

theorem idf_recipe : idf NUM_DOCS idxW "recipe" = Real.log (5 / 3) := by
  rw [idf, postings_recipe]
  norm_num [NUM_DOCS]

theorem idf_roast : idf NUM_DOCS idxW "roast" = 0 := by
  rw [idf, postings_roast]
  norm_num

theorem log_52_pos : (0 : ℝ) < Real.log (5 / 2) :=
  Real.log_pos (by norm_num)

theorem log_53_pos : (0 : ℝ) < Real.log (5 / 3) :=
  Real.log_pos (by norm_num)

theorem log_54_pos : (0 : ℝ) < Real.log (5 / 4) :=
  Real.log_pos (by norm_num)

/-! ### General lemmas about the document sweep -/

theorem docScoreNum_eq_zero (tq : List (Term × ℝ)) : docScoreNum tq = 0 := by
  have h : ∀ (l : List (Term × ℝ)) (c : ℝ),
      l.foldl (fun acc p => acc + p.2 * 0) c = c := by
    intro l
    induction l with
    | nil => intro c; rfl
    | cons p rest ih => intro c; simp [List.foldl_cons, ih]
  exact h _ 0

theorem scoreStep_ok (qry : List (Term × Nat)) (tq : List (Term × ℝ)) (qn : ℝ)
    (st st' : ScoreState) (d : Nat)
    (h : scoreStep qry tq qn st d = .ok st') :
    ∃ dn, dget d st.dnormT = some dn ∧ qn * dn ≠ 0 ∧
      st' = { st with scores := st.scores ++ [(d, (0 : ℝ))] } := by
  unfold scoreStep at h
  dsimp only at h
  cases hd : dget d st.dnormT with
  | none => rw [hd] at h; exact absurd h (by simp)
  | some dn =>
      rw [hd] at h
      dsimp only at h
      by_cases hz : qn * dn = 0
      · rw [if_pos hz] at h; exact absurd h (by simp)
      · rw [if_neg hz] at h
        refine ⟨dn, rfl, hz, ?_⟩
        cases h
        simp [docScoreNum_eq_zero, zero_div]

theorem docLoop_ok (qry : List (Term × Nat)) (tq : List (Term × ℝ)) (qn : ℝ) :
    ∀ (ds : List Nat) (st st' : ScoreState),
      docLoop qry tq qn ds st = .ok st' →
      st'.idxc = st.idxc ∧ st'.dnormT = st.dnormT ∧ st'.plists = st.plists ∧
      st'.scores = st.scores ++ ds.map (fun d => (d, (0 : ℝ))) ∧
      ∀ d ∈ ds, (dget d st.dnormT).isSome := by
  intro ds
  induction ds with
  | nil =>
      intro st st' h
      unfold docLoop at h
      cases h
      simp
  | cons d rest ih =>
      intro st st' h
      unfold docLoop at h
      cases hstep : scoreStep qry tq qn st d with
      | error e => rw [hstep] at h; exact absurd h (by simp)
      | ok st1 =>
          rw [hstep] at h
          obtain ⟨dn, hdn, _, hst1⟩ := scoreStep_ok qry tq qn st st1 d hstep
          obtain ⟨hi, hdt, hp, hs, hk⟩ := ih st1 st' h
          subst hst1
          refine ⟨hi, hdt, hp, ?_, ?_⟩
          · simp only [hs, List.map_cons, List.append_assoc, List.singleton_append]
          · intro x hx
            rcases List.mem_cons.mp hx with hx | hx
            · subst hx; simp [hdn]
            · exact hk x hx

theorem docLoop_success (qry : List (Term × Nat)) (tq : List (Term × ℝ))
    (qn : ℝ) :
    ∀ (ds : List Nat) (st : ScoreState),
      (∀ d ∈ ds, ∃ v, dget d st.dnormT = some v ∧ qn * v ≠ 0) →
      docLoop qry tq qn ds st =
        .ok { st with scores := st.scores ++ ds.map (fun d => (d, (0 : ℝ))) } := by
  intro ds
  induction ds with
  | nil => intro st _; simp [docLoop]
  | cons d rest ih =>
      intro st hcond
      obtain ⟨v, hv, hvz⟩ := hcond d (List.mem_cons_self d rest)
      unfold docLoop scoreStep
      rw [hv]
      simp only [if_neg hvz]
      rw [docScoreNum_eq_zero, zero_div]
      have := ih { st with scores := st.scores ++ [(d, (0 : ℝ))] }
        (by intro x hx; exact hcond x (List.mem_cons_of_mem d hx))
      rw [this]
      simp

theorem docLoop_qnorm_zero (qry : List (Term × Nat)) (tq : List (Term × ℝ))
    (d : Nat) (ds : List Nat) (st : ScoreState) (v : ℝ)
    (hv : dget d st.dnormT = some v) :
    docLoop qry tq 0 (d :: ds) st = .error .divByZero := by
  unfold docLoop scoreStep
  rw [hv]
  simp

theorem score_dtFull_ok (env : Env) (q : List Term) (i : InvIndex)
    (st : ScoreState) (h : score_dtFull env q i = .ok st) :
    st = ⟨i.idx, env.dnorm, initPlists (pyCounter q) i,
          (List.range env.numDocs).map (fun d => (d, (0 : ℝ)))⟩ ∧
    ∀ d < env.numDocs, (dget d env.dnorm).isSome := by
  unfold score_dtFull at h
  dsimp only at h
  obtain ⟨hi, hd, hp, hs, hk⟩ := docLoop_ok _ _ _ _ _ _ h
  constructor
  · cases st
    dsimp only at hi hd hp hs
    simp_all
  · intro d hdlt
    simpa using hk d (List.mem_range.mpr hdlt)

theorem score_dtFull_success (env : Env) (q : List Term) (i : InvIndex)
    (hcond : ∀ d ∈ List.range env.numDocs,
      ∃ v, dget d env.dnorm = some v ∧ qnorm env q * v ≠ 0) :
    score_dtFull env q i =
      .ok ⟨i.idx, env.dnorm, initPlists (pyCounter q) i,
           (List.range env.numDocs).map (fun d => (d, (0 : ℝ)))⟩ := by
  unfold score_dtFull
  dsimp only
  rw [docLoop_success _ _ _ _ _ (by simpa using hcond)]
  simp

theorem score_dt_ok_scores (env : Env) (q : List Term) (i : InvIndex)
    (s : List (Nat × ℝ)) (h : score_dt env q i = .ok s) :
    s = (List.range env.numDocs).map (fun d => (d, (0 : ℝ))) := by
  unfold score_dt at h
  cases hfull : score_dtFull env q i with
  | error e => rw [hfull] at h; exact absurd h (by simp [Except.map])
  | ok st =>
      rw [hfull] at h
      obtain ⟨hst, -⟩ := score_dtFull_ok env q i st hfull
      cases h
      rw [hst]

theorem score_dt_qnorm_zero (env : Env) (q : List Term) (i : InvIndex)
    (hq : qnorm env q = 0) (hN : 0 < env.numDocs)
    (h0 : (dget 0 env.dnorm).isSome) :
    score_dt env q i = .error .divByZero := by
  obtain ⟨v, hv⟩ := Option.isSome_iff_exists.mp h0
  unfold score_dt score_dtFull
  dsimp only
  obtain ⟨n, hn⟩ : ∃ n, env.numDocs = n + 1 := ⟨env.numDocs - 1, by omega⟩
  rw [hn, List.range_succ_eq_map, hq,
    docLoop_qnorm_zero _ _ _ _ _ v (by simpa using hv)]
  rfl

/-! ### Worked-example evaluations -/

theorem pyCounterW :
    pyCounter ["beijing", "duck", "recipe"] =
      [("beijing", 1), ("duck", 1), ("recipe", 1)] := by decide

theorem dnormW_eval : envW.dnorm =
    [(1, Real.sqrt ((1 / 4 * Real.log (5 / 2)) ^ 2 +
          (1 / 4 * Real.log (5 / 2)) ^ 2 + (1 / 2 * Real.log (5 / 4)) ^ 2)),
     (4, Real.sqrt ((1 / 4 * Real.log (5 / 2)) ^ 2 +
          (1 / 4 * Real.log (5 / 2)) ^ 2 + (1 / 4 * Real.log (5 / 4)) ^ 2 +
          (1 / 4 * Real.log (5 / 3)) ^ 2)),
     (0, Real.sqrt (Real.log (5 / 4) ^ 2)),
     (2, Real.sqrt ((1 / 2 * Real.log (5 / 4)) ^ 2 +
          (1 / 4 * Real.log (5 / 2)) ^ 2 + (1 / 4 * Real.log (5 / 3)) ^ 2)),
     (3, Real.sqrt ((1 / 2 * Real.log (5 / 2)) ^ 2 +
          (1 / 2 * Real.log (5 / 3)) ^ 2))] := by
  simp only [envW, buildDnorm, buildDnormSq, td_matrix, List.enum_cons,
    List.enum_nil, List.foldl_cons, List.foldl_nil, List.map_cons,
    List.map_nil, idf_beijing, idf_dish, idf_duck, idf_rabbit, idf_recipe,
    idf_roast]
  norm_num [upsertAdd, doclen, td_matrix, List.getD]

theorem qnormSqW_eval : qnormSq envW queryW =
    (1 / 3 * Real.log (5 / 2)) ^ 2 + ((1 / 3 * Real.log (5 / 4)) ^ 2 +
      ((1 / 3 * Real.log (5 / 3)) ^ 2 + 0)) := by
  simp only [qnormSq, tfidfQ, queryW, pyCounterW, envW,
    List.map_cons, List.map_nil, List.sum_cons, List.sum_nil,
    idf_beijing, idf_duck, idf_recipe]
  norm_num

theorem qnormW_pos : 0 < qnorm envW queryW := by
  rw [qnorm]
  apply Real.sqrt_pos.mpr
  rw [qnormSqW_eval]
  have h1 := pow_pos (mul_pos (by norm_num : (0:ℝ) < 1 / 3) log_52_pos) 2
  have h2 := pow_pos (mul_pos (by norm_num : (0:ℝ) < 1 / 3) log_54_pos) 2
  have h3 := pow_pos (mul_pos (by norm_num : (0:ℝ) < 1 / 3) log_53_pos) 2
  linarith

theorem condW : ∀ d ∈ List.range envW.numDocs,
    ∃ v, dget d envW.dnorm = some v ∧ qnorm envW queryW * v ≠ 0 := by
  have hq := qnormW_pos
  have h52 := log_52_pos
  have h53 := log_53_pos
  have h54 := log_54_pos
  intro d hd
  have hd5 : d < 5 := by simpa using hd
  interval_cases d
  · exact ⟨Real.sqrt (Real.log (5 / 4) ^ 2),
      by rw [dnormW_eval]; norm_num [dget],
      ne_of_gt (mul_pos hq (Real.sqrt_pos.mpr (pow_pos h54 2)))⟩
  · refine ⟨Real.sqrt ((1 / 4 * Real.log (5 / 2)) ^ 2 +
      (1 / 4 * Real.log (5 / 2)) ^ 2 + (1 / 2 * Real.log (5 / 4)) ^ 2),
      by rw [dnormW_eval]; norm_num [dget], ne_of_gt (mul_pos hq ?_)⟩
    apply Real.sqrt_pos.mpr
    have a := pow_pos (mul_pos (by norm_num : (0:ℝ) < 1 / 4) h52) 2
    have b := pow_pos (mul_pos (by norm_num : (0:ℝ) < 1 / 2) h54) 2
    linarith
  · refine ⟨Real.sqrt ((1 / 2 * Real.log (5 / 4)) ^ 2 +
      (1 / 4 * Real.log (5 / 2)) ^ 2 + (1 / 4 * Real.log (5 / 3)) ^ 2),
      by rw [dnormW_eval]; norm_num [dget], ne_of_gt (mul_pos hq ?_)⟩
    apply Real.sqrt_pos.mpr
    have a := pow_pos (mul_pos (by norm_num : (0:ℝ) < 1 / 2) h54) 2
    have b := pow_pos (mul_pos (by norm_num : (0:ℝ) < 1 / 4) h52) 2
    have c := pow_pos (mul_pos (by norm_num : (0:ℝ) < 1 / 4) h53) 2
    linarith
  · refine ⟨Real.sqrt ((1 / 2 * Real.log (5 / 2)) ^ 2 +
      (1 / 2 * Real.log (5 / 3)) ^ 2),
      by rw [dnormW_eval]; norm_num [dget], ne_of_gt (mul_pos hq ?_)⟩
    apply Real.sqrt_pos.mpr
    have a := pow_pos (mul_pos (by norm_num : (0:ℝ) < 1 / 2) h52) 2
    have b := pow_pos (mul_pos (by norm_num : (0:ℝ) < 1 / 2) h53) 2
    linarith
  · refine ⟨Real.sqrt ((1 / 4 * Real.log (5 / 2)) ^ 2 +
      (1 / 4 * Real.log (5 / 2)) ^ 2 + (1 / 4 * Real.log (5 / 4)) ^ 2 +
      (1 / 4 * Real.log (5 / 3)) ^ 2),
      by rw [dnormW_eval]; norm_num [dget], ne_of_gt (mul_pos hq ?_)⟩
    apply Real.sqrt_pos.mpr
    have a := pow_pos (mul_pos (by norm_num : (0:ℝ) < 1 / 4) h52) 2
    have b := pow_pos (mul_pos (by norm_num : (0:ℝ) < 1 / 4) h54) 2
    have c := pow_pos (mul_pos (by norm_num : (0:ℝ) < 1 / 4) h53) 2
    linarith

theorem score_dtFull_W : score_dtFull envW queryW idxW =
    .ok ⟨idxW.idx, envW.dnorm, initPlists (pyCounter queryW) idxW,
         (List.range envW.numDocs).map (fun d => (d, (0 : ℝ)))⟩ :=
  score_dtFull_success envW queryW idxW condW

theorem score_dt_W : score_dt envW queryW idxW =
    .ok [(0, 0), (1, 0), (2, 0), (3, 0), (4, 0)] := by
  unfold score_dt
  rw [score_dtFull_W]
  have hr : List.range envW.numDocs = [0, 1, 2, 3, 4] := by decide
  rw [hr]
  rfl

theorem qnorm_empty : qnorm envW [] = 0 := by
  simp [qnorm, qnormSq, tfidfQ, pyCounter]

theorem qnorm_roast : qnorm envW ["roast"] = 0 := by
  have hc : pyCounter ["roast"] = [("roast", 1)] := by decide
  simp [qnorm, qnormSq, tfidfQ, hc, envW, idf_roast]

theorem dget0W_isSome : (dget 0 envW.dnorm).isSome := by
  norm_num [dnormW_eval, dget]

/-! ### Evaluations on the second dataset (`td2`) -/

theorem postings2_a : idx2.postings "a" = [(0, 1)] := by decide

theorem idf2_a : idf 2 idx2 "a" = Real.log 2 := by
  rw [idf, postings2_a]
  norm_num

theorem log_2_pos : (0 : ℝ) < Real.log 2 := Real.log_pos one_lt_two

theorem dnorm2_eval : env2.dnorm = [(0, Real.sqrt (Real.log 2 ^ 2))] := by
  simp only [env2, buildDnorm, buildDnormSq, td2, List.enum_cons,
    List.enum_nil, List.foldl_cons, List.foldl_nil, List.map_cons,
    List.map_nil]
  norm_num [upsertAdd, doclen, td2, List.getD, idf, postings2_a]

theorem qnormSq2_eval : qnormSq env2 ["a"] = Real.log 2 ^ 2 := by
  have hc : pyCounter ["a"] = [("a", 1)] := by decide
  simp only [qnormSq, tfidfQ, hc, env2,
    List.map_cons, List.map_nil, List.sum_cons, List.sum_nil]
  norm_num [idf, postings2_a]

theorem qnorm2_pos : 0 < qnorm env2 ["a"] := by
  rw [qnorm]
  exact Real.sqrt_pos.mpr (by rw [qnormSq2_eval]; exact pow_pos log_2_pos 2)

theorem docLoop_step_ok (qry : List (Term × Nat)) (tq : List (Term × ℝ))
    (qn : ℝ) (d : Nat) (ds : List Nat) (st : ScoreState) (v : ℝ)
    (hv : dget d st.dnormT = some v) (hne : qn * v ≠ 0) :
    docLoop qry tq qn (d :: ds) st =
      docLoop qry tq qn ds
        { st with scores := st.scores ++ [(d, docScoreNum tq / (qn * v))] } := by
  conv_lhs => rw [docLoop.eq_def]
  dsimp only
  rw [scoreStep.eq_def, hv]
  dsimp only
  rw [if_neg hne]

theorem docLoop_step_keyError (qry : List (Term × Nat)) (tq : List (Term × ℝ))
    (qn : ℝ) (d : Nat) (ds : List Nat) (st : ScoreState)
    (hv : dget d st.dnormT = none) :
    docLoop qry tq qn (d :: ds) st = .error (.keyError d) := by
  conv_lhs => rw [docLoop.eq_def]
  dsimp only
  rw [scoreStep.eq_def, hv]

theorem dget0_dnorm2 : dget 0 env2.dnorm = some (Real.sqrt (Real.log 2 ^ 2)) := by
  rw [dnorm2_eval]
  norm_num [dget]

theorem dget1_dnorm2 : dget 1 env2.dnorm = none := by
  rw [dnorm2_eval]
  norm_num [dget]

theorem score_dt_env2_keyError :
    score_dt env2 ["a"] idx2 = .error (.keyError 1) := by
  have hne : qnorm env2 ["a"] * Real.sqrt (Real.log 2 ^ 2) ≠ 0 :=
    ne_of_gt (mul_pos qnorm2_pos (Real.sqrt_pos.mpr (pow_pos log_2_pos 2)))
  unfold score_dt score_dtFull
  dsimp only
  have hr : List.range env2.numDocs = [0, 1] := by decide
  rw [hr,
    docLoop_step_ok _ _ _ 0 _ _ (Real.sqrt (Real.log 2 ^ 2)) dget0_dnorm2 hne,
    docLoop_step_keyError _ _ _ 1 _ _ dget1_dnorm2]
  rfl

/-! ### Claims -/

/-- Claim C1: the spec requires that for the worked example and query
["beijing", "duck", "recipe"] document 4 scores strictly above document 3
and document 0 scores strictly between 0 and documents 4 and 1.  The code
instead returns a score of exactly 0 for all five documents, because the
per-document term frequency and TF-IDF are left as TODO placeholders
hardcoded to 0: the required strict inequalities are impossible. -/
theorem C1_worked_example_all_scores_zero :
    score_dt envW queryW idxW =
      .ok [(0, 0), (1, 0), (2, 0), (3, 0), (4, 0)] :=
  score_dt_W

/-- Claim C2 counterexample: for the empty query, `qnorm` is 0 and
`score_dt` raises `ZeroDivisionError` instead of returning a score of 0
for every document: there is no special case for `qnorm = 0`. -/
theorem C2_counterexample :
    score_dt envW [] idxW = Except.error PyErr.divByZero :=
  score_dt_qnorm_zero envW [] idxW qnorm_empty (by decide) dget0W_isSome

/-- Claim C2 (amended): for every query whose query normalizer `qnorm` is 0
(for example the empty query, or a query consisting solely of terms with
idf = 0), on a nonempty collection whose `dnorm` table contains document 0,
`score_dt` raises a division-by-zero error instead of returning scores. -/
theorem C2_qnorm_zero_raises (env : Env) (q : List Term) (i : InvIndex)
    (hq : qnorm env q = 0) (hN : 0 < env.numDocs)
    (h0 : (dget 0 env.dnorm).isSome) :
    score_dt env q i = Except.error PyErr.divByZero :=
  score_dt_qnorm_zero env q i hq hN h0

/-- Claim C2 witness: the query ["roast"] consists solely of terms with
idf = 0, its normalizer is 0, and scoring it raises division by zero. -/
theorem C2_witness :
    qnorm envW ["roast"] = 0 ∧
    score_dt envW ["roast"] idxW = Except.error PyErr.divByZero :=
  ⟨qnorm_roast,
   C2_qnorm_zero_raises envW ["roast"] idxW qnorm_roast (by decide)
     dget0W_isSome⟩

/-- Claim C3: `idf` returns 0 when the term's posting list is empty
(df = 0) and `ln(N / df)` when df > 0; in particular `idf("roast") = 0`
in the worked example. -/
theorem C3_idf_spec : ∀ (N : Nat) (ix : InvIndex) (t : Term),
    ((ix.postings t).length = 0 → idf N ix t = 0) ∧
    (0 < (ix.postings t).length →
      idf N ix t = Real.log ((N : ℝ) / ((ix.postings t).length : ℝ))) ∧
    idf NUM_DOCS idxW "roast" = 0 := by
  intro N ix t
  refine ⟨?_, ?_, idf_roast⟩
  · intro h
    rw [idf, h]
    simp
  · intro h
    rw [idf, if_pos h]

/-- Claim C3 witness: applied to "duck" (df = 4 > 0) and "roast" (df = 0)
in the worked example. -/
theorem C3_witness :
    idf NUM_DOCS idxW "duck" =
      Real.log ((NUM_DOCS : ℝ) / ((idxW.postings "duck").length : ℝ)) ∧
    idf NUM_DOCS idxW "roast" = 0 :=
  ⟨(C3_idf_spec NUM_DOCS idxW "duck").2.1 (by decide),
   (C3_idf_spec NUM_DOCS idxW "duck").2.2⟩

/-- Claim C4: whenever `score_dt` returns a mapping, it has exactly
`N = env.numDocs` entries, one per document id in [0, N), in order —
including documents matching none of the query terms. -/
theorem C4_full_coverage (env : Env) (q : List Term) (i : InvIndex)
    (s : List (Nat × ℝ)) (h : score_dt env q i = .ok s) :
    s.map Prod.fst = List.range env.numDocs ∧ s.length = env.numDocs := by
  have hs := score_dt_ok_scores env q i s h
  subst hs
  refine ⟨?_, by simp⟩
  rw [List.map_map]
  have hc : (Prod.fst ∘ fun d : Nat => (d, (0:ℝ))) = id := rfl
  rw [hc, List.map_id]

/-- Claim C4 witness: the worked example returns five entries keyed
0 through 4. -/
theorem C4_witness :
    ([((0:Nat), (0:ℝ)), (1, 0), (2, 0), (3, 0), (4, 0)]).map Prod.fst =
      List.range envW.numDocs ∧
    ([((0:Nat), (0:ℝ)), (1, 0), (2, 0), (3, 0), (4, 0)]).length =
      envW.numDocs :=
  C4_full_coverage envW queryW idxW _ score_dt_W

/-- Claim C5 counterexample: in the `td2` dataset document 1 has no
recorded terms, so it is absent from the `dnorm` table, and `score_dt`
raises `KeyError` on it instead of assigning it score 0. -/
theorem C5_counterexample :
    dget 1 env2.dnorm = none ∧
    score_dt env2 ["a"] idx2 = Except.error (PyErr.keyError 1) :=
  ⟨dget1_dnorm2, score_dt_env2_keyError⟩

/-- Claim C5 (amended): a document with no recorded terms is absent from
the `dnorm` table, and `score_dt` never returns a score mapping when such
a document is in range: every document id below `numDocs` must be present
in `dnorm` for a result to be returned (otherwise a `KeyError`, or an
earlier error, is raised). -/
theorem C5_result_needs_all_dnorm_keys (env : Env) (q : List Term)
    (i : InvIndex) (s : List (Nat × ℝ)) (h : score_dt env q i = .ok s) :
    ∀ d < env.numDocs, (dget d env.dnorm).isSome := by
  unfold score_dt at h
  cases hfull : score_dtFull env q i with
  | error e => rw [hfull] at h; exact absurd h (by simp [Except.map])
  | ok st => exact (score_dtFull_ok env q i st hfull).2

/-- Claim C5 witness: the worked example returns a mapping, so document 3
is present in its `dnorm` table. -/
theorem C5_witness : ((dget 3 envW.dnorm).isSome : Prop) :=
  C5_result_needs_all_dnorm_keys envW queryW idxW _ score_dt_W 3 (by decide)

/-- Claim C6: for a term that is not a key of the inverted index,
`postings` returns the empty list (it never raises), and the unknown term
is absorbed: its idf is 0. -/
theorem C6_unknown_term (c : List (Term × List Posting)) (N : Nat)
    (t : Term) (h : dget t c = none) :
    (InvIndex.mk c).postings t = [] ∧ idf N (InvIndex.mk c) t = 0 := by
  have hp : (InvIndex.mk c).postings t = [] := by
    rw [InvIndex.postings]
    dsimp only
    rw [h]
    rfl
  refine ⟨hp, ?_⟩
  rw [idf, hp]
  simp

/-- Claim C6 witness: "pizza" is unknown to the worked-example index. -/
theorem C6_witness :
    (InvIndex.mk inv_idx).postings "pizza" = [] ∧
    idf 5 (InvIndex.mk inv_idx) "pizza" = 0 :=
  C6_unknown_term inv_idx 5 "pizza" (by decide)

/-- Claim C7: for two terms of the same index with document frequencies
0 < df1 < df2 (and a nonempty collection), the idf of the rarer term is
strictly greater. -/
theorem C7_idf_monotone (N : Nat) (ix : InvIndex) (t1 t2 : Term)
    (h1 : 0 < (ix.postings t1).length)
    (h12 : (ix.postings t1).length < (ix.postings t2).length)
    (hN : 0 < N) :
    idf N ix t2 < idf N ix t1 := by
  have h2 : 0 < (ix.postings t2).length := lt_trans h1 h12
  rw [idf, if_pos h2, idf, if_pos h1]
  apply Real.log_lt_log
  · exact div_pos (Nat.cast_pos.mpr hN) (Nat.cast_pos.mpr h2)
  · exact div_lt_div_of_pos_left (Nat.cast_pos.mpr hN)
      (Nat.cast_pos.mpr h1) (Nat.cast_lt.mpr h12)

/-- Claim C7 witness: "recipe" (df = 3) has strictly greater idf than
"duck" (df = 4) in the worked example. -/
theorem C7_witness : idf NUM_DOCS idxW "duck" < idf NUM_DOCS idxW "recipe" :=
  C7_idf_monotone NUM_DOCS idxW "recipe" "duck" (by decide) (by decide)
    (by decide)

/-- Claim C8: the spec requires every posting entry of the query terms to
be visited exactly once (9 entries for the worked query).  The code never
reads or deletes a single posting entry: the call-private copies are still
complete when `score_dt` returns, so the number of entries visited and
drained is 0, not 9. -/
theorem C8_postings_never_visited :
    (score_dtFull envW queryW idxW).map ScoreState.plists =
      .ok (initPlists (pyCounter queryW) idxW) ∧
    totalPostings (initPlists (pyCounter queryW) idxW) = 9 := by
  constructor
  · rw [score_dtFull_W]
    rfl
  · decide

/-- Claim C9: a successful `score_dt` call leaves the index contents and
the `dnorm` table exactly as it found them, and the posting lists it holds
are the call-private copies fetched at setup. -/
theorem C9_frame (env : Env) (q : List Term) (i : InvIndex)
    (st : ScoreState) (h : score_dtFull env q i = .ok st) :
    st.idxc = i.idx ∧ st.dnormT = env.dnorm ∧
    st.plists = initPlists (pyCounter q) i := by
  obtain ⟨hst, -⟩ := score_dtFull_ok env q i st h
  subst hst
  exact ⟨rfl, rfl, rfl⟩

/-- Claim C9 witness: instantiated on the worked example's final state. -/
theorem C9_witness :
    (ScoreState.mk idxW.idx envW.dnorm (initPlists (pyCounter queryW) idxW)
      ((List.range envW.numDocs).map (fun d => (d, (0:ℝ))))).idxc =
        idxW.idx ∧
    (ScoreState.mk idxW.idx envW.dnorm (initPlists (pyCounter queryW) idxW)
      ((List.range envW.numDocs).map (fun d => (d, (0:ℝ))))).dnormT =
        envW.dnorm ∧
    (ScoreState.mk idxW.idx envW.dnorm (initPlists (pyCounter queryW) idxW)
      ((List.range envW.numDocs).map (fun d => (d, (0:ℝ))))).plists =
        initPlists (pyCounter queryW) idxW :=
  C9_frame envW queryW idxW _ score_dtFull_W

/-- Claim C10: whenever `score_dt` returns without an exception, every
score in the mapping is exactly 0, because the per-document term frequency
and TF-IDF are hardcoded to 0. -/
theorem C10_all_scores_zero (env : Env) (q : List Term) (i : InvIndex)
    (s : List (Nat × ℝ)) (h : score_dt env q i = .ok s) :
    ∀ p ∈ s, p.2 = 0 := by
  have hs := score_dt_ok_scores env q i s h
  subst hs
  intro p hp
  obtain ⟨d, -, rfl⟩ := List.mem_map.mp hp
  rfl

/-- Claim C10 witness: the worked example returns, and its entry for
document 3 carries score 0. -/
theorem C10_witness :
    score_dt envW queryW idxW =
      Except.ok [(0, 0), (1, 0), (2, 0), (3, 0), (4, 0)] ∧
    ((3:Nat), (0:ℝ)).2 = 0 :=
  ⟨score_dt_W,
   C10_all_scores_zero envW queryW idxW _ score_dt_W (3, 0) (by simp)⟩

end Daat
